import Mathlib

/-!
Shallow embedding of the `iron-example` feed-publishing backend
(`src/model.rs`, `src/database.rs`, `src/handlers.rs`).

The in-memory store (`Database`) and the three request handlers
(`FeedHandler`, `MakePostHandler`, `PostHandler`) are translated from the
Rust source.  External collaborators of the core (the JSON encoder/decoder
of `rustc_serialize`, the HTTP body reader, and the router's parameter
map) are not part of this repository; their *results* are passed to the
handler functions as explicit arguments, so every control-flow decision of
the handlers themselves is taken from the source.  The UUID parser (the
`uuid` crate's `Uuid::parse_str`) is likewise external; it is modelled
concretely below so that witnesses can run on real inputs.
-/

/-- Modelled from the spec: a UUID is "a 128-bit universally unique
identifier, used as the sole key for post lookup".  We carry the value as
a natural number. -/
structure Uuid where
  val : Nat
  deriving DecidableEq, Repr

instance : BEq Uuid := ⟨fun a b => decide (a = b)⟩

theorem Uuid.beq_iff (a b : Uuid) : (a == b) = true ↔ a = b := by
  simp [BEq.beq]

/-- A hexadecimal digit, as accepted by the external UUID parser. -/
def Uuid.isHexDigit (c : Char) : Bool :=
  c.isDigit || ('a' ≤ c && c ≤ 'f') || ('A' ≤ c && c ≤ 'F')

/-- Numeric value of a hexadecimal digit. -/
def Uuid.hexVal (c : Char) : Nat :=
  if c.isDigit then c.toNat - '0'.toNat
  else if 'a' ≤ c && c ≤ 'f' then c.toNat - 'a'.toNat + 10
  else c.toNat - 'A'.toNat + 10

/-- Split a character list on `'-'` separators. -/
def Uuid.splitDash : List Char → List (List Char)
  | [] => [[]]
  | c :: cs =>
    let rest := splitDash cs
    if c = '-' then [] :: rest
    else
      match rest with
      | [] => [[c]]
      | g :: gs => (c :: g) :: gs

/-- Modelled from the spec: the external collaborator "a UUID parser that
fails distinguishably on malformed input" (`Uuid::parse_str` of the `uuid`
crate).  It accepts the canonical hyphenated form, five groups of
hexadecimal digits of lengths 8-4-4-4-12, and fails on anything else. -/
def Uuid.parse_str (s : String) : Except String Uuid :=
  let groups := Uuid.splitDash s.data
  if groups.map List.length = [8, 4, 4, 4, 12]
      && groups.all (fun g => g.all Uuid.isHexDigit) then
    .ok ⟨groups.flatten.foldl (fun acc c => 16 * acc + Uuid.hexVal c) 0⟩
  else
    .error "invalid uuid"

/-- `Author` from `src/model.rs`: `{ handle: String }`. -/
structure Author where
  handle : String
  deriving DecidableEq, Repr

/-- `Author::new` from `src/model.rs`. -/
def Author.new (handle : String) : Author :=
  { handle := handle }

/-- `Post` from `src/model.rs`.  The `DateTime<UTC>` timestamp is carried
as an opaque serializable value, modelled by its string form; the core
never inspects it. -/
structure Post where
  summary : String
  contents : String
  author_handle : String
  date_time : String
  uuid : Uuid
  deriving DecidableEq, Repr

/-- `Post::new` from `src/model.rs`: only the author's handle is copied
into the post. -/
def Post.new (summary contents : String) (author : Author)
    (date_time : String) (uuid : Uuid) : Post :=
  { summary := summary
    contents := contents
    author_handle := author.handle
    date_time := date_time
    uuid := uuid }

/-- `Database` from `src/database.rs`: `posts: Vec<Post>`. -/
structure Database where
  posts : List Post
  deriving DecidableEq, Repr

/-- `Database::new` from `src/database.rs`. -/
def Database.new : Database :=
  { posts := [] }

/-- `Database::add_post` from `src/database.rs`: `self.posts.push(post)`,
i.e. append at the end of the vector. -/
def Database.add_post (db : Database) (post : Post) : Database :=
  { posts := db.posts ++ [post] }

/-- An HTTP response: status code and body, as built by
`Response::with((status, body))`; `Response::with(status)` leaves the
body empty. -/
structure Response where
  status : Nat
  body : String
  deriving DecidableEq, Repr

/-- `get_http_param!` from `src/handlers.rs`: if the router extension is
missing, respond `500 Internal Server Error`; if the named parameter is
absent, respond `400 Bad Request`; otherwise yield the value.  The
router's parameter map is the external argument `routerExt`. -/
def get_http_param (routerExt : Option (String → Option String))
    (name : String) : Except Response String :=
  match routerExt with
  | none => .error { status := 500, body := "" }
  | some find =>
    match find name with
    | none => .error { status := 400, body := "" }
    | some val => .ok val

/-- `FeedHandler::handle` from `src/handlers.rs`:
`try_handler!(json::encode(posts))` then `200` with the payload.  The
external JSON encoder for post lists is the argument `encodeList`. -/
def FeedHandler.handle (encodeList : List Post → Except String String)
    (db : Database) : Response :=
  match encodeList db.posts with
  | .error e => { status := 500, body := e }
  | .ok payload => { status := 200, body := payload }

/-- `MakePostHandler::handle` from `src/handlers.rs`.  `readBody` is the
result of `req.body.read_to_string` (external I/O); `decode` is the
external JSON decoder `json::decode`.  An unreadable body goes through
the one-argument `try_handler!`, hence `500`; a decode failure goes
through `try_handler!(_, status::BadRequest)`, hence `400`; on success
the post is added and the raw payload is echoed with `201 Created`. -/
def MakePostHandler.handle (readBody : Except String String)
    (decode : String → Except String Post)
    (db : Database) : Database × Response :=
  match readBody with
  | .error e => (db, { status := 500, body := e })
  | .ok payload =>
    match decode payload with
    | .error e => (db, { status := 400, body := e })
    | .ok post => (db.add_post post, { status := 201, body := payload })

/-- `PostHandler::find_post` from `src/handlers.rs`: linear scan with
`iter().find(|post| post.uuid() == id)`, first match or nothing. -/
def PostHandler.find_post (db : Database) (id : Uuid) : Option Post :=
  db.posts.find? (fun post => post.uuid == id)

/-- `PostHandler::handle` from `src/handlers.rs`: extract the `id`
parameter, parse it as a UUID (`400` on failure), look the post up
(`404` with empty body when absent), serialize it (`400` on failure,
via `try_handler!(_, status::BadRequest)`), else `200` with the JSON
payload.  The external JSON encoder for a single post is `encode`. -/
def PostHandler.handle (routerExt : Option (String → Option String))
    (encode : Post → Except String String)
    (db : Database) : Response :=
  match get_http_param routerExt "id" with
  | .error resp => resp
  | .ok post_id =>
    match Uuid.parse_str post_id with
    | .error e => { status := 400, body := e }
    | .ok id =>
      match PostHandler.find_post db id with
      | some post =>
        match encode post with
        | .error e => { status := 400, body := e }
        | .ok payload => { status := 200, body := payload }
      | none => { status := 404, body := "" }

/-- The store operations named by the append-only invariant; `list` and
`find_by_id` take the database by shared reference in the source and
leave it unchanged, `add` appends. -/
inductive StoreOp where
  | add (p : Post)
  | list
  | find_by_id (id : Uuid)
  deriving DecidableEq, Repr

/-- The state of the store after one operation. -/
def StoreOp.run (db : Database) : StoreOp → Database
  | .add p => db.add_post p
  | .list => db
  | .find_by_id _ => db

theorem Uuid.beq_eq_false_iff (a b : Uuid) : (a == b) = false ↔ a ≠ b := by
  simp [BEq.beq]

/-- Folding `add_post` over a list of posts appends that list, in order,
to the stored sequence. -/
theorem Database.foldl_add_post (l : List Post) (db : Database) :
    (l.foldl Database.add_post db).posts = db.posts ++ l := by
  induction l generalizing db with
  | nil => simp
  | cons p l ih => simp [ih, Database.add_post]

/-- C1: the claim says an unreadable body yields status 400, but the
source routes the read failure through the one-argument `try_handler!`,
which answers `500 Internal Server Error`: on a request whose body read
fails with "connection reset", the create handler answers 500, not 400. -/
theorem C1_counterexample :
    (MakePostHandler.handle (.error "connection reset")
        (fun _ => .error "parse error") Database.new).2.status ≠ 400 ∧
    (MakePostHandler.handle (.error "connection reset")
        (fun _ => .error "parse error") Database.new).2.status = 500 := by
  exact ⟨by decide, rfl⟩

/-- C1 (amended): an unreadable body makes the create handler answer
status 500 with the error description as body, and a body that fails to
decode as a `Post` makes it answer status 400 with the error description
as body; in both cases the store is unchanged. -/
theorem C1_create_error_statuses
    (decode : String → Except String Post) (db : Database)
    (e payload : String) :
    MakePostHandler.handle (.error e) decode db =
      (db, { status := 500, body := e }) ∧
    (decode payload = .error e →
      MakePostHandler.handle (.ok payload) decode db =
        (db, { status := 400, body := e })) := by
  refine ⟨rfl, fun h => ?_⟩
  simp [MakePostHandler.handle, h]

/-- Witness for C1: the amended statement evaluated on a concrete
malformed body. -/
theorem C1_create_error_statuses_witness :
    MakePostHandler.handle (.ok "not json")
        (fun _ => .error "bad json") Database.new =
      (Database.new, { status := 400, body := "bad json" }) :=
  (C1_create_error_statuses (fun _ => .error "bad json")
    Database.new "bad json" "not json").2 rfl

/-- C3: `add` appends the post at the end of the sequence, always
succeeds (it is a total function of the previous state), and the read
view `posts` afterwards holds all previous posts followed by the new one,
in insertion order. -/
theorem C3_add_appends (db : Database) (p : Post) :
    (db.add_post p).posts = db.posts ++ [p] := rfl

/-- C7: when the body decodes as a valid `Post`, the create handler adds
the post to the store and answers status 201 with exactly the raw
submitted payload as body — echoed back, not re-serialized from the
decoded post. -/
theorem C7_create_echoes_payload
    (decode : String → Except String Post) (db : Database)
    (payload : String) (post : Post)
    (h : decode payload = .ok post) :
    MakePostHandler.handle (.ok payload) decode db =
      (db.add_post post, { status := 201, body := payload }) := by
  simp [MakePostHandler.handle, h]

/-- Witness for C7: a concrete successful decode is echoed back with 201. -/
theorem C7_create_echoes_payload_witness :
    MakePostHandler.handle (.ok "raw payload")
        (fun _ => .ok (Post.new "s" "c" (Author.new "mathieu") "t" ⟨3⟩))
        Database.new =
      (Database.new.add_post (Post.new "s" "c" (Author.new "mathieu") "t" ⟨3⟩),
        { status := 201, body := "raw payload" }) :=
  C7_create_echoes_payload
    (fun _ => .ok (Post.new "s" "c" (Author.new "mathieu") "t" ⟨3⟩))
    Database.new "raw payload" (Post.new "s" "c" (Author.new "mathieu") "t" ⟨3⟩) rfl

/-- C8: the store is append-only — for every store operation (`add`,
`list`, `find_by_id`), the post sequence before the operation is a
prefix of the sequence after it. -/
theorem C8_append_only (db : Database) (op : StoreOp) :
    db.posts <+: (StoreOp.run db op).posts := by
  cases op with
  | add p => exact ⟨[p], rfl⟩
  | list => exact List.prefix_refl _
  | find_by_id id => exact List.prefix_refl _

/-- C10: whenever the create handler answers with a non-201 status, the
store is left unchanged — `add_post` runs only after a successful body
read and decode. -/
theorem C10_no_store_change_on_error
    (readBody : Except String String)
    (decode : String → Except String Post) (db : Database)
    (h : (MakePostHandler.handle readBody decode db).2.status ≠ 201) :
    (MakePostHandler.handle readBody decode db).1 = db := by
  cases readBody with
  | error e => rfl
  | ok payload =>
    cases hd : decode payload with
    | error e => simp [MakePostHandler.handle, hd]
    | ok post =>
      exact absurd (by simp [MakePostHandler.handle, hd]) h

/-- Witness for C10: a concrete erroneous request leaves a concrete store
unchanged. -/
theorem C10_no_store_change_on_error_witness :
    (MakePostHandler.handle (.ok "not json") (fun _ => .error "bad json")
        (Database.new.add_post (Post.new "s" "c" (Author.new "a") "t" ⟨9⟩))).1 =
      Database.new.add_post (Post.new "s" "c" (Author.new "a") "t" ⟨9⟩) :=
  C10_no_store_change_on_error (.ok "not json") (fun _ => .error "bad json")
    (Database.new.add_post (Post.new "s" "c" (Author.new "a") "t" ⟨9⟩))
    (by decide)

/-- First match of the linear scan: with the sought id absent from the
front part, the scan over a split list stops at the given post. -/
theorem find_post_first_match (id : Uuid) (l1 l2 : List Post) (p : Post)
    (hp : p.uuid = id) (hl1 : ∀ q ∈ l1, q.uuid ≠ id) :
    (l1 ++ p :: l2).find? (fun q => q.uuid == id) = some p := by
  induction l1 with
  | nil =>
    simp only [List.nil_append]
    exact List.find?_cons_of_pos _ ((Uuid.beq_iff _ _).2 hp)
  | cons x xs ih =>
    rw [List.cons_append,
      List.find?_cons_of_neg _
        (by simp only [Uuid.beq_iff]; exact hl1 x (by simp))]
    exact ih (fun q hq => hl1 q (by simp [hq]))

/-- The linear scan finds a stored post by its id when no other stored
post shares that id. -/
theorem find_post_unique_mem (p : Post) (l : List Post)
    (hmem : p ∈ l) (huniq : ∀ q ∈ l, q.uuid = p.uuid → q = p) :
    l.find? (fun q => q.uuid == p.uuid) = some p := by
  induction l with
  | nil => simp at hmem
  | cons x xs ih =>
    by_cases hx : x = p
    · subst hx
      exact List.find?_cons_of_pos _ (by simp [Uuid.beq_iff])
    · have hxu : x.uuid ≠ p.uuid := fun h => hx (huniq x (by simp) h)
      rw [List.find?_cons_of_neg _ (by simp only [Uuid.beq_iff]; exact hxu)]
      have hmem' : p ∈ xs := by
        cases List.mem_cons.1 hmem with
        | inl h => exact absurd h.symm hx
        | inr h => exact h
      exact ih hmem' (fun q hq => huniq q (List.mem_cons_of_mem _ hq))

/-- C2: the claim says that every post inserted via `add` is returned by
`find_by_id` of its id, and simultaneously that the first match in
insertion order wins; with two different posts stored under the same id
(the store never checks uniqueness), the second inserted post is not the
value returned for its id — the first one is. -/
theorem C2_counterexample :
    PostHandler.find_post
        ((Database.new.add_post
            (Post.new "first" "c1" (Author.new "a") "t1" ⟨1⟩)).add_post
          (Post.new "second" "c2" (Author.new "a") "t2" ⟨1⟩))
        (Post.new "second" "c2" (Author.new "a") "t2" ⟨1⟩).uuid ≠
      some (Post.new "second" "c2" (Author.new "a") "t2" ⟨1⟩) := by
  decide

/-- C2 (amended): `find_by_id` returns the first match of a linear scan
in insertion order; consequently a stored post `p` is the value returned
for `p.uuid` whenever no other stored post shares its id (the spec's
id-uniqueness convention), and an id carried by no stored post yields
nothing. -/
theorem C2_find_by_id_correct (db : Database) (p : Post) (id : Uuid) :
    (p ∈ db.posts → (∀ q ∈ db.posts, q.uuid = p.uuid → q = p) →
      PostHandler.find_post db p.uuid = some p) ∧
    ((∀ q ∈ db.posts, q.uuid ≠ id) → PostHandler.find_post db id = none) ∧
    (∀ l1 l2, db.posts = l1 ++ p :: l2 → p.uuid = id →
      (∀ q ∈ l1, q.uuid ≠ id) → PostHandler.find_post db id = some p) := by
  refine ⟨fun hmem huniq => ?_, fun habs => ?_, fun l1 l2 hsplit hp hl1 => ?_⟩
  · exact find_post_unique_mem p db.posts hmem huniq
  · unfold PostHandler.find_post
    rw [List.find?_eq_none]
    intro q hq
    simpa [Uuid.beq_iff] using habs q hq
  · unfold PostHandler.find_post
    rw [hsplit]
    exact find_post_first_match id l1 l2 p hp hl1

/-- Witness for C2 (amended): a post stored alone under its id is found. -/
theorem C2_find_by_id_correct_witness :
    PostHandler.find_post
        (Database.new.add_post (Post.new "s" "c" (Author.new "a") "t" ⟨7⟩))
        ⟨7⟩ =
      some (Post.new "s" "c" (Author.new "a") "t" ⟨7⟩) :=
  (C2_find_by_id_correct
      (Database.new.add_post (Post.new "s" "c" (Author.new "a") "t" ⟨7⟩))
      (Post.new "s" "c" (Author.new "a") "t" ⟨7⟩) ⟨7⟩).1
    (by decide) (by decide)

/-- C4: on a request whose `id` parameter is a syntactically valid UUID,
the fetch handler answers 200 with the JSON-serialized post as body when
a post with that id is stored (and its serialization succeeds), and 404
with an empty body when no stored post has that id. -/
theorem C4_fetch_found_and_not_found
    (find : String → Option String) (s : String) (id : Uuid)
    (encode : Post → Except String String) (db : Database)
    (hparam : find "id" = some s) (hid : Uuid.parse_str s = .ok id) :
    (∀ post payload, PostHandler.find_post db id = some post →
      encode post = .ok payload →
      PostHandler.handle (some find) encode db =
        { status := 200, body := payload }) ∧
    (PostHandler.find_post db id = none →
      PostHandler.handle (some find) encode db =
        { status := 404, body := "" }) := by
  constructor
  · intro post payload hfind henc
    simp [PostHandler.handle, get_http_param, hparam, hid, hfind, henc]
  · intro hfind
    simp [PostHandler.handle, get_http_param, hparam, hid, hfind]

/-- Witness for C4: a concrete stored post is served with 200, and a
concrete absent id with 404. -/
theorem C4_fetch_found_and_not_found_witness :
    PostHandler.handle
        (some (fun _ => some "00000000-0000-0000-0000-000000000001"))
        (fun _ => .ok "json of post")
        (Database.new.add_post (Post.new "s" "c" (Author.new "a") "t" ⟨1⟩)) =
      { status := 200, body := "json of post" } :=
  (C4_fetch_found_and_not_found
      (fun _ => some "00000000-0000-0000-0000-000000000001")
      "00000000-0000-0000-0000-000000000001" ⟨1⟩
      (fun _ => .ok "json of post")
      (Database.new.add_post (Post.new "s" "c" (Author.new "a") "t" ⟨1⟩))
      rfl (by rfl)).1
    (Post.new "s" "c" (Author.new "a") "t" ⟨1⟩) "json of post"
    (by decide) rfl

/-- C5: the fetch handler validates in this order — a missing router
extension answers 500, an absent `id` parameter answers 400, and a
present parameter that is not a syntactically valid UUID answers 400. -/
theorem C5_fetch_validation_order
    (encode : Post → Except String String) (db : Database)
    (find : String → Option String) (s e : String) :
    PostHandler.handle none encode db = { status := 500, body := "" } ∧
    (find "id" = none →
      PostHandler.handle (some find) encode db =
        { status := 400, body := "" }) ∧
    (find "id" = some s → Uuid.parse_str s = .error e →
      PostHandler.handle (some find) encode db =
        { status := 400, body := e }) := by
  refine ⟨rfl, fun habs => ?_, fun hparam hbad => ?_⟩
  · simp [PostHandler.handle, get_http_param, habs]
  · simp [PostHandler.handle, get_http_param, hparam, hbad]

/-- Witness for C5: a concrete non-UUID parameter is answered with 400. -/
theorem C5_fetch_validation_order_witness :
    PostHandler.handle (some (fun _ => some "not-a-uuid"))
        (fun _ => .ok "") Database.new =
      { status := 400, body := "invalid uuid" } :=
  (C5_fetch_validation_order (fun _ => .ok "") Database.new
      (fun _ => some "not-a-uuid") "not-a-uuid" "invalid uuid").2.2
    rfl (by rfl)

/-- C6: a JSON serialization failure on a found post in the fetch handler
is answered with status 400 and the error description, while a JSON
serialization failure in the list-feed handler is answered with status
500 and the error description in the body. -/
theorem C6_serialization_failure_statuses
    (find : String → Option String) (s e : String) (id : Uuid)
    (encode : Post → Except String String)
    (encodeList : List Post → Except String String)
    (db : Database) (post : Post) :
    (find "id" = some s → Uuid.parse_str s = .ok id →
      PostHandler.find_post db id = some post → encode post = .error e →
      PostHandler.handle (some find) encode db =
        { status := 400, body := e }) ∧
    (encodeList db.posts = .error e →
      FeedHandler.handle encodeList db = { status := 500, body := e }) := by
  refine ⟨fun hparam hid hfind henc => ?_, fun henc => ?_⟩
  · simp [PostHandler.handle, get_http_param, hparam, hid, hfind, henc]
  · simp [FeedHandler.handle, henc]

/-- Witness for C6: concrete serialization failures on both paths. -/
theorem C6_serialization_failure_statuses_witness :
    PostHandler.handle
        (some (fun _ => some "00000000-0000-0000-0000-000000000002"))
        (fun _ => .error "encode failed")
        (Database.new.add_post (Post.new "s" "c" (Author.new "a") "t" ⟨2⟩)) =
      { status := 400, body := "encode failed" } ∧
    FeedHandler.handle (fun _ => .error "encode failed") Database.new =
      { status := 500, body := "encode failed" } :=
  ⟨(C6_serialization_failure_statuses
      (fun _ => some "00000000-0000-0000-0000-000000000002")
      "00000000-0000-0000-0000-000000000002" "encode failed" ⟨2⟩
      (fun _ => .error "encode failed") (fun _ => .error "encode failed")
      (Database.new.add_post (Post.new "s" "c" (Author.new "a") "t" ⟨2⟩))
      (Post.new "s" "c" (Author.new "a") "t" ⟨2⟩)).1
    rfl (by rfl) (by decide) rfl,
  (C6_serialization_failure_statuses
      (fun _ => some "00000000-0000-0000-0000-000000000002")
      "00000000-0000-0000-0000-000000000002" "encode failed" ⟨2⟩
      (fun _ => .error "encode failed") (fun _ => .error "encode failed")
      Database.new
      (Post.new "s" "c" (Author.new "a") "t" ⟨2⟩)).2 rfl⟩

/-- C9: each `add` holds the store's mutex for its whole critical
section, so a concurrent execution of N `add` calls is some
serialization of them — a fold of `add_post` over a permutation of the
submitted posts.  For every such serialization, `list()` afterwards
yields exactly N posts, and when the submitted ids are distinct, all N
distinct ids are present: no add call is lost and no post is corrupted. -/
theorem C9_concurrent_adds (posts order : List Post)
    (hperm : order.Perm posts)
    (hids : (posts.map Post.uuid).Nodup) :
    (order.foldl Database.add_post Database.new).posts.length =
      posts.length ∧
    (∀ p ∈ posts,
      p.uuid ∈ (order.foldl Database.add_post Database.new).posts.map
        Post.uuid) ∧
    ((order.foldl Database.add_post Database.new).posts.map
      Post.uuid).Nodup := by
  have hfold : (order.foldl Database.add_post Database.new).posts = order :=
    by simp [Database.foldl_add_post, Database.new]
  rw [hfold]
  refine ⟨hperm.length_eq, fun p hp => ?_, ?_⟩
  · exact List.mem_map_of_mem Post.uuid (hperm.mem_iff.2 hp)
  · exact (hperm.map Post.uuid).nodup_iff.2 hids

/-- Witness for C9: two concurrent adds serialized in reversed order
still yield both posts and both ids. -/
theorem C9_concurrent_adds_witness :
    ([Post.new "b" "cb" (Author.new "a") "t" ⟨2⟩,
      Post.new "a" "ca" (Author.new "a") "t" ⟨1⟩].foldl
        Database.add_post Database.new).posts.length = 2 ∧
    (Post.new "a" "ca" (Author.new "a") "t" ⟨1⟩).uuid ∈
      ([Post.new "b" "cb" (Author.new "a") "t" ⟨2⟩,
        Post.new "a" "ca" (Author.new "a") "t" ⟨1⟩].foldl
          Database.add_post Database.new).posts.map Post.uuid :=
  ⟨(C9_concurrent_adds
      [Post.new "a" "ca" (Author.new "a") "t" ⟨1⟩,
        Post.new "b" "cb" (Author.new "a") "t" ⟨2⟩]
      [Post.new "b" "cb" (Author.new "a") "t" ⟨2⟩,
        Post.new "a" "ca" (Author.new "a") "t" ⟨1⟩]
      (List.Perm.swap _ _ _) (by decide)).1,
    (C9_concurrent_adds
      [Post.new "a" "ca" (Author.new "a") "t" ⟨1⟩,
        Post.new "b" "cb" (Author.new "a") "t" ⟨2⟩]
      [Post.new "b" "cb" (Author.new "a") "t" ⟨2⟩,
        Post.new "a" "ca" (Author.new "a") "t" ⟨1⟩]
      (List.Perm.swap _ _ _) (by decide)).2.1
      (Post.new "a" "ca" (Author.new "a") "t" ⟨1⟩) (by decide)⟩
